import Mathlib

/-!
Verification of the denoising orchestration pipeline of
`src/render/denoiser.cpp` (Mitsuba 3 fork).

The OptiX engine, the JIT allocator and the `Bitmap` container are external
collaborators; they are represented abstractly (the engine as a pair of
opaque functions supplied by the caller of the model, bitmaps by the narrow
interface the denoiser consumes).  Float values are modelled as rationals:
the only arithmetic the orchestration code performs on pixel data is
negation, which is exact in IEEE-754 as well.
-/

set_option autoImplicit false

namespace Mitsuba

/-- Pixel formats used by the denoiser (`OPTIX_PIXEL_FORMAT_*`). -/
inductive OptixPixelFormat where
  | float2
  | float3
  | float4
deriving DecidableEq, Inhabited

/-- A drjit tensor of 32-bit floats with shape `(shape0, shape1, shape2)` =
`(height, width, channels)`, flattened channel-minor in `data`. -/
structure TensorXf where
  shape0 : Nat
  shape1 : Nat
  shape2 : Nat
  data : List ℚ
deriving DecidableEq, Inhabited

/-- The size `tensor.size()`: the product of the shape. -/
def TensorXf.size (t : TensorXf) : Nat := t.shape0 * t.shape1 * t.shape2

/-- The `OptixImage2D` descriptor: a non-owning view over tensor storage.  The
`data` field stands for the bytes behind the device pointer. -/
structure OptixImage2D where
  data : List ℚ
  width : Nat
  height : Nat
  rowStrideInBytes : Nat
  pixelStrideInBytes : Nat
  format : OptixPixelFormat
deriving DecidableEq, Inhabited

/-- The helper `optixImage2DfromTensor` (denoiser.cpp lines 7-17), with
`sizeof(float) = 4`. -/
def optixImage2DfromTensor (t : TensorXf) (pixel_format : OptixPixelFormat) :
    OptixImage2D :=
  { data := t.data
    width := t.shape1
    height := t.shape0
    rowStrideInBytes := t.shape1 * t.shape2 * 4
    pixelStrideInBytes := t.shape2 * 4
    format := pixel_format }

/-- The subset of `OptixDenoiserOptions` the constructor sets. -/
structure DenoiserOptions where
  guideAlbedo : Bool
  guideNormal : Bool
deriving DecidableEq, Inhabited

/-- The denoiser instance state that is relevant to the orchestration logic:
the configured resolution and the configuration flags.  Device buffers and
the engine handle are opaque and not represented. -/
structure Denoiser where
  inputSize : Nat × Nat
  options : DenoiserOptions
  temporal : Bool
deriving DecidableEq, Inhabited

/-- The configuration error raised by the constructor. -/
inductive ConfigError where
  | normalsWithoutAlbedo
deriving DecidableEq, Inhabited

/-- The constructor `Denoiser::Denoiser` (denoiser.cpp lines 19-52): fails with a
configuration error when `normals && !albedo`; otherwise records the flags.
Engine/resource failures are external and not modelled. -/
def Denoiser.construct (input_size : Nat × Nat) (albedo normals temporal : Bool) :
    Except ConfigError Denoiser :=
  if normals && !albedo then
    .error .normalsWithoutAlbedo
  else
    .ok { inputSize := input_size
          options := { guideAlbedo := albedo, guideNormal := normals }
          temporal := temporal }

/-- One `gather`/negate/`scatter` pass (denoiser.cpp lines 103-109): negate
every element whose flattened index lies in `arange(off, size, 3)`, i.e.
every index `i < size` with `i % 3 = off` (for `off < 3`).  The counter `i`
tracks the flattened index of the head of the list. -/
def negStride3 (off size : Nat) : Nat → List ℚ → List ℚ
  | _, [] => []
  | i, x :: xs => (if i < size ∧ i % 3 = off then -x else x) :: negStride3 off size (i + 1) xs

/-- The coordinate-system correction applied to a (copy of the) normals
tensor (denoiser.cpp lines 97-112): negate the X components (stride-3
offset 0), then the Z components (stride-3 offset 2). -/
def correctNormals (t : TensorXf) : TensorXf :=
  let t1 : TensorXf := { t with data := negStride3 0 t.size 0 t.data }
  { t1 with data := negStride3 2 t1.size 0 t1.data }

/-- The `OptixDenoiserParams` fields the code sets (lines 82-89):
`hdrIntensity` holds the scalar the intensity estimator produced,
`denoiseAlpha = true`, `blendFactor = 0`, `hdrAverageColor = nullptr`. -/
structure OptixDenoiserParamsRec where
  hdrIntensity : ℚ
  denoiseAlpha : Bool
  blendFactor : ℚ
  hdrAverageColor : Option ℚ
deriving DecidableEq, Inhabited

/-- The `OptixDenoiserGuideLayer` fields the code sets (lines 91-120);
a zero-initialized (never written) descriptor is `none`. -/
structure OptixDenoiserGuideLayerRec where
  albedo : Option OptixImage2D
  normal : Option OptixImage2D
  flow : Option OptixImage2D
deriving DecidableEq, Inhabited

/-- The `OptixDenoiserLayer` fields the code sets (lines 69-78, 118-119). -/
structure OptixDenoiserLayerRec where
  input : OptixImage2D
  output : OptixImage2D
  previousOutput : Option OptixImage2D
deriving DecidableEq, Inhabited

/-- Everything `optixDenoiserInvoke` receives from the orchestration code
(line 122-124), i.e. one engine invocation. -/
structure Invocation where
  params : OptixDenoiserParamsRec
  guide : OptixDenoiserGuideLayerRec
  layers : OptixDenoiserLayerRec
deriving DecidableEq, Inhabited

/-- The opaque vendor engine: `optixDenoiserComputeIntensity` is a function
from the input descriptor to the intensity scalar, `optixDenoiserInvoke` a
function from the assembled invocation to the bytes it writes into the
output buffer. -/
structure Engine where
  computeIntensity : OptixImage2D → ℚ
  invoke : Invocation → List ℚ

/-- One guarded read of an optional input (`albedo`, `normals`, `flow`,
`previous_denoised` are `const TensorXf *`): when the configuration flag is
unset the pointer is never dereferenced; when it is set, dereferencing a
null pointer is undefined behaviour, modelled as `none`. -/
def readGuarded (flag : Bool) (t : Option TensorXf) : Option (Option TensorXf) :=
  match flag, t with
  | false, _ => some none
  | true, none => none
  | true, some x => some (some x)

/-- The tensor form of `Denoiser::denoise` (denoiser.cpp lines 61-128).  Returns
the tensor wrapping the engine's output buffer together with the engine
invocation that produced it, or `none` when the call would dereference an
absent optional input.  The uninitialized output buffer (`dr::empty`) is
modelled as zeros. -/
def Denoiser.denoiseTensor (d : Denoiser) (eng : Engine) (noisy : TensorXf)
    (albedo normals previous_denoised flow : Option TensorXf) :
    Option (TensorXf × Invocation) := do
  let input_pixel_format :=
    if noisy.shape2 = 3 then OptixPixelFormat.float3 else OptixPixelFormat.float4
  let input := optixImage2DfromTensor noisy input_pixel_format
  let output : OptixImage2D := { input with data := List.replicate noisy.size 0 }
  let hdrIntensity := eng.computeIntensity input
  let albedoRead ← readGuarded d.options.guideAlbedo albedo
  let normalsRead ← readGuarded d.options.guideNormal normals
  let flowRead ← readGuarded d.temporal flow
  let previousRead ← readGuarded d.temporal previous_denoised
  let params : OptixDenoiserParamsRec :=
    { hdrIntensity := hdrIntensity
      denoiseAlpha := true
      blendFactor := 0
      hdrAverageColor := none }
  let guide : OptixDenoiserGuideLayerRec :=
    { albedo := albedoRead.map (fun a => optixImage2DfromTensor a .float3)
      normal := normalsRead.map (fun n => optixImage2DfromTensor (correctNormals n) .float3)
      flow := flowRead.map (fun f => optixImage2DfromTensor f .float2) }
  let layers : OptixDenoiserLayerRec :=
    { input := input
      output := output
      previousOutput := previousRead.map (fun p => optixImage2DfromTensor p input_pixel_format) }
  let inv : Invocation := { params := params, guide := guide, layers := layers }
  let output_data := eng.invoke inv
  some (⟨noisy.shape0, noisy.shape1, noisy.shape2, output_data⟩, inv)

/-- A heap of tensor buffers, to make the in-place `scatter` writes of the
normals-correction block (lines 97-113) explicit: each cell is one tensor
object with its storage. -/
abbrev BufHeap := List TensorXf

/-- The normals-handling block of the tensor-form `denoise` (lines 97-113),
with its memory behaviour explicit: read the caller's tensor at `nid`,
allocate a fresh copy (`std::make_unique<TensorXf>(*normals)`), apply the
two scatter passes in place on the copy, and build the guide descriptor
from the copy.  Returns the final heap, the copy's address and the guide
descriptor. -/
def correctedNormalsBlock (h : BufHeap) (nid : Nat) : BufHeap × Nat × OptixImage2D :=
  let t := List.getD h nid default
  let h1 : BufHeap := h ++ [t]
  let cid := List.length h
  let t1 : TensorXf := { t with data := negStride3 0 t.size 0 t.data }
  let h2 : BufHeap := List.set h1 cid t1
  let t2 : TensorXf := { t1 with data := negStride3 2 t1.size 0 t1.data }
  let h3 : BufHeap := List.set h2 cid t2
  (h3, cid, optixImage2DfromTensor t2 .float3)

/-- The pixel formats of the image container that the denoiser inspects or
produces. -/
inductive PixelFormat where
  | MultiChannel
  | RGB
  | RGBA
  | other
deriving DecidableEq, Inhabited

/-- Component type of the produced bitmap (`Struct::Type::Float32`). -/
inductive StructType where
  | Float32
deriving DecidableEq, Inhabited

/-- A sub-image returned by `Bitmap::split()`: the denoiser consumes only
its channel count and its pixel storage. -/
structure SubImage where
  channelCount : Nat
  data : List ℚ
deriving DecidableEq, Inhabited

/-- Modelled from the spec: the multi-layer image container (`Bitmap`) is
an external collaborator whose implementation is not under src/; it is
consumed through the narrow interface `pixel_format()`, `height()`,
`width()`, `channel_count()`, `data()`, `split()` (the ordered
`(name, sub-image)` list, stored here as `layers`) and `to_string()`, and
is constructible from a raw host buffer plus a declared format. -/
structure Bitmap where
  pixelFormat : PixelFormat
  componentFormat : StructType
  height : Nat
  width : Nat
  channelCount : Nat
  data : List ℚ
  layers : List (String × SubImage)
deriving DecidableEq, Inhabited

/-- Modelled from the spec: `Bitmap::to_string()` (not under src/) is what
the missing-channel message interpolates to describe the image; per the
spec the message includes "the full list of available layer names". -/
def Bitmap.describe (b : Bitmap) : List String := List.map Prod.fst b.layers

/-- The resolver state of the structured path: the four `found_*` locals
and the five located sub-image pointers (denoiser.cpp lines 153-162). -/
structure ResolveState where
  found_albedo : Bool
  found_normals : Bool
  found_flow : Bool
  found_previous_denoised : Bool
  albedo_bmp : Option SubImage
  normals_bmp : Option SubImage
  flow_bmp : Option SubImage
  previous_denoised_bmp : Option SubImage
  noisy_bmp : Option SubImage
deriving DecidableEq, Inhabited

/-- The early-exit condition of the scan loop (lines 166-168). -/
def resolveDone (s : ResolveState) : Bool :=
  s.found_albedo && s.found_normals && s.found_flow && s.found_previous_denoised
    && s.noisy_bmp.isSome

/-- One iteration body of the scan loop (lines 169-186): five sequential
guarded matches against the current `(name, sub-image)` pair. -/
def resolveStep (albedo_ch normals_ch flow_ch previous_denoised_ch noisy_ch : String)
    (s : ResolveState) (pair : String × SubImage) : ResolveState :=
  let s1 := if !s.found_albedo && pair.1 == albedo_ch then
      { s with found_albedo := true, albedo_bmp := some pair.2 } else s
  let s2 := if !s1.found_normals && pair.1 == normals_ch then
      { s1 with found_normals := true, normals_bmp := some pair.2 } else s1
  let s3 := if !s2.found_flow && pair.1 == flow_ch then
      { s2 with found_flow := true, flow_bmp := some pair.2 } else s2
  let s4 := if !s3.found_previous_denoised && pair.1 == previous_denoised_ch then
      { s3 with found_previous_denoised := true, previous_denoised_bmp := some pair.2 }
    else s3
  if s4.noisy_bmp.isNone && pair.1 == noisy_ch then
    { s4 with noisy_bmp := some pair.2 } else s4

/-- The scan loop over `noisy_->split()` (lines 165-187). -/
def resolveLoop (albedo_ch normals_ch flow_ch previous_denoised_ch noisy_ch : String) :
    ResolveState → List (String × SubImage) → ResolveState
  | s, [] => s
  | s, pair :: rest =>
    if resolveDone s then s
    else resolveLoop albedo_ch normals_ch flow_ch previous_denoised_ch noisy_ch
      (resolveStep albedo_ch normals_ch flow_ch previous_denoised_ch noisy_ch s pair) rest

/-- The initial resolver state (lines 159-162): an empty requested name
counts as already found. -/
def initResolveState (albedo_ch normals_ch flow_ch previous_denoised_ch : String) :
    ResolveState :=
  { found_albedo := albedo_ch == ""
    found_normals := normals_ch == ""
    found_flow := flow_ch == ""
    found_previous_denoised := previous_denoised_ch == ""
    albedo_bmp := none
    normals_bmp := none
    flow_bmp := none
    previous_denoised_bmp := none
    noisy_bmp := none }

/-- The channel resolver: one scan of the image's ordered sub-image list. -/
def resolveChannels (b : Bitmap)
    (albedo_ch normals_ch flow_ch previous_denoised_ch noisy_ch : String) : ResolveState :=
  resolveLoop albedo_ch normals_ch flow_ch previous_denoised_ch noisy_ch
    (initResolveState albedo_ch normals_ch flow_ch previous_denoised_ch) b.layers

/-- Fatal errors of the multi-layer path: a requested channel absent from
the image (`Throw` at lines 189-202, carrying the channel name and the
image description), or the undefined dereference of an absent optional
tensor inside the delegated tensor-form call. -/
inductive DenoiseError where
  | missingChannel (channel : String) (available : List String)
  | nullInput
deriving DecidableEq, Inhabited

/-- Memory kinds of the JIT allocator (`AllocType`). -/
inductive AllocType where
  | Device
  | Host
deriving DecidableEq, Inhabited

/-- Device/stream operations the multi-layer path issues, in issue order:
the intensity pass and the main invocation (inside the tensor-form call),
then `jit_malloc_migrate(..., Host, ...)`, `jit_sync_thread()`, and the
final `new Bitmap(...)` wrapping. -/
inductive Event where
  | computeIntensity
  | engineInvoke
  | migrate (target : AllocType)
  | syncThread
  | newBitmap
deriving DecidableEq, Inhabited

/-- The trace of operations every successful multi-layer call issues. -/
def denoiseEvents : List Event :=
  [.computeIntensity, .engineInvoke, .migrate .Host, .syncThread, .newBitmap]

/-- Wrap the host-migrated denoised tensor as a new image (lines 146-150
and 238-242): RGB for 3 channels, RGBA otherwise, `Float32` components,
size `{shape(1), shape(0)}`, holding the migrated bytes, no layer list. -/
def wrapDenoised (denoised : TensorXf) : Bitmap :=
  { pixelFormat := if denoised.shape2 = 3 then .RGB else .RGBA
    componentFormat := .Float32
    height := denoised.shape0
    width := denoised.shape1
    channelCount := denoised.shape2
    data := denoised.data
    layers := [] }

/-- The outcome of a successful multi-layer `denoise` call: the returned
image, the denoised tensor it wraps, the engine invocation that produced
it, and the issued operation trace. -/
structure BitmapDenoiseResult where
  bitmap : Bitmap
  denoised : TensorXf
  invocation : Invocation
  events : List Event
deriving DecidableEq, Inhabited

/-- The Bitmap form of `Denoiser::denoise` (denoiser.cpp lines 130-243).  The
structured path resolves channels, builds the per-role tensors and
delegates to the tensor form.  NOTE: the delegation mirrors the source
call site (lines 230-232), which passes `flow_tensor` in the
`previous_denoised` parameter position and `previous_denoised_tensor` in
the `flow` position (the declaration at lines 62-64 orders the parameters
`noisy, albedo, normals, previous_denoised, flow`). -/
def Denoiser.denoiseBitmap (d : Denoiser) (eng : Engine) (noisy : Bitmap)
    (albedo_ch normals_ch flow_ch previous_denoised_ch noisy_ch : String) :
    Except DenoiseError BitmapDenoiseResult :=
  if noisy.pixelFormat ≠ PixelFormat.MultiChannel then
    let noisy_tensor : TensorXf := ⟨noisy.height, noisy.width, noisy.channelCount, noisy.data⟩
    match d.denoiseTensor eng noisy_tensor none none none none with
    | none => .error .nullInput
    | some (denoised, inv) =>
      .ok { bitmap := wrapDenoised denoised
            denoised := denoised
            invocation := inv
            events := denoiseEvents }
  else
    let r := resolveChannels noisy albedo_ch normals_ch flow_ch previous_denoised_ch noisy_ch
    match r.noisy_bmp with
    | none => .error (.missingChannel noisy_ch noisy.describe)
    | some noisy_bmp =>
      if r.found_albedo = false then .error (.missingChannel albedo_ch noisy.describe)
      else if r.found_normals = false then .error (.missingChannel normals_ch noisy.describe)
      else if r.found_flow = false then .error (.missingChannel flow_ch noisy.describe)
      else if r.found_previous_denoised = false then
        .error (.missingChannel previous_denoised_ch noisy.describe)
      else
        let noisy_tensor : TensorXf :=
          ⟨noisy.height, noisy.width, noisy_bmp.channelCount, noisy_bmp.data⟩
        let albedo_tensor : Option TensorXf :=
          r.albedo_bmp.map (fun bmp => ⟨noisy.height, noisy.width, 3, bmp.data⟩)
        let normals_tensor : Option TensorXf :=
          r.normals_bmp.map (fun bmp => ⟨noisy.height, noisy.width, 3, bmp.data⟩)
        let flow_tensor : Option TensorXf :=
          r.flow_bmp.map (fun bmp => ⟨noisy.height, noisy.width, 2, bmp.data⟩)
        let previous_denoised_tensor : Option TensorXf :=
          r.previous_denoised_bmp.map
            (fun bmp => ⟨noisy.height, noisy.width, noisy_bmp.channelCount, bmp.data⟩)
        match d.denoiseTensor eng noisy_tensor albedo_tensor normals_tensor
            flow_tensor previous_denoised_tensor with
        | none => .error .nullInput
        | some (denoised, inv) =>
          .ok { bitmap := wrapDenoised denoised
                denoised := denoised
                invocation := inv
                events := denoiseEvents }

/-- The trivial concrete engine used by the evaluation witnesses. -/
def engTrivial : Engine :=
  { computeIntensity := fun _ => 0
    invoke := fun _ => [] }

/-- A guide-free, non-temporal denoiser instance bound to resolution 1x1. -/
def denoiserPlainW : Denoiser := ⟨(1, 1), ⟨false, false⟩, false⟩

/-- A concrete 1x1 RGB noisy tensor. -/
def noisyW : TensorXf := ⟨1, 1, 3, [1, 2, 3]⟩

/-- The result of the concrete tensor-form call of the C5 witness. -/
def resW : TensorXf × Invocation :=
  (denoiserPlainW.denoiseTensor engTrivial noisyW none none none none).getD default

/-- The multi-layer image of the channel-resolution scenarios of the spec:
layers `{"diffuse", "albedo", "normals", "noisy"}`. -/
def bitmapC6 : Bitmap :=
  { pixelFormat := .MultiChannel
    componentFormat := .Float32
    height := 1
    width := 1
    channelCount := 12
    data := []
    layers := [("diffuse", ⟨3, [10, 11, 12]⟩), ("albedo", ⟨3, [1, 2, 3]⟩),
               ("normals", ⟨3, [4, 5, 6]⟩), ("noisy", ⟨3, [7, 8, 9]⟩)] }

/-- An albedo+normals, non-temporal instance for the resolution scenario. -/
def denoiserC6 : Denoiser := ⟨(1, 1), ⟨true, true⟩, false⟩

/-- A multi-layer image with flow, previous-denoised and noisy layers of
pairwise different contents, for the temporal delegation scenario. -/
def bitmapT : Bitmap :=
  { pixelFormat := .MultiChannel
    componentFormat := .Float32
    height := 1
    width := 1
    channelCount := 8
    data := []
    layers := [("flow", ⟨2, [100, 200]⟩), ("prev", ⟨3, [7, 8, 9]⟩),
               ("noisy", ⟨3, [1, 2, 3]⟩)] }

/-- A temporal, guide-free instance for the temporal delegation scenario. -/
def denoiserT : Denoiser := ⟨(1, 1), ⟨false, false⟩, true⟩

/-- The result of the concrete temporal multi-layer call. -/
def resT : BitmapDenoiseResult :=
  (denoiserT.denoiseBitmap engTrivial bitmapT "" "" "flow" "prev" "noisy").toOption.getD default

/-- A 1x1 multi-layer image whose resolution differs from the instance it
is fed to. -/
def bitmapSmall : Bitmap :=
  { pixelFormat := .MultiChannel
    componentFormat := .Float32
    height := 1
    width := 1
    channelCount := 3
    data := []
    layers := [("noisy", ⟨3, [1, 2, 3]⟩)] }

/-- A guide-free instance configured for resolution 2x2. -/
def denoiserMismatch : Denoiser := ⟨(2, 2), ⟨false, false⟩, false⟩

/-- The result of feeding the 1x1 image to the 2x2-configured instance. -/
def resSmall : BitmapDenoiseResult :=
  (denoiserMismatch.denoiseBitmap engTrivial bitmapSmall "" "" "" "" "noisy").toOption.getD default

theorem negStride3_negStride3_self (a s : Nat) :
    ∀ (i : Nat) (xs : List ℚ), negStride3 a s i (negStride3 a s i xs) = xs := by
  intro i xs
  induction xs generalizing i with
  | nil => rfl
  | cons x xs ih =>
    by_cases h : i < s ∧ i % 3 = a
    · simp [negStride3, h, ih]
    · simp [negStride3, h, ih]

theorem negStride3_comm (a b s : Nat) :
    ∀ (i : Nat) (xs : List ℚ),
      negStride3 a s i (negStride3 b s i xs) = negStride3 b s i (negStride3 a s i xs) := by
  intro i xs
  induction xs generalizing i with
  | nil => rfl
  | cons x xs ih =>
    by_cases h1 : i < s ∧ i % 3 = a <;> by_cases h2 : i < s ∧ i % 3 = b
    · have hab : a = b := by omega
      subst hab
      simp [negStride3, h1, ih]
    · have hab : a ≠ b := by omega
      simp [negStride3, h1, h2, ih, hab]
    · have hab : b ≠ a := by omega
      simp [negStride3, h1, h2, ih, hab]
    · simp [negStride3, h1, h2, ih]

theorem correctNormals_size (t : TensorXf) : (correctNormals t).size = t.size := by
  cases t
  rfl

/-- C2: constructing a denoiser raises the configuration error exactly for
the combination `guideNormals = true, guideAlbedo = false`; every other
combination of the three flags succeeds (the engine itself is opaque, so
only the configuration error is modelled). -/
theorem construct_config_error_iff (input_size : Nat × Nat) (albedo normals temporal : Bool) :
    (Denoiser.construct input_size albedo normals temporal = .error .normalsWithoutAlbedo
      ↔ normals = true ∧ albedo = false) ∧
    (Denoiser.construct input_size albedo normals temporal
        = .ok { inputSize := input_size
                options := { guideAlbedo := albedo, guideNormal := normals }
                temporal := temporal }
      ↔ ¬(normals = true ∧ albedo = false)) := by
  cases albedo <;> cases normals <;> simp [Denoiser.construct]

/-- C3: the coordinate-system correction on normals tensors is an
involution: on any tensor whose size is a multiple of 3, applying it twice
returns the original tensor. -/
theorem correctNormals_involution (t : TensorXf) (h : t.size % 3 = 0) :
    correctNormals (correctNormals t) = t := by
  obtain ⟨s0, s1, s2, d⟩ := t
  simp only [correctNormals, TensorXf.size]
  congr 1
  rw [negStride3_comm 0 2, negStride3_negStride3_self, negStride3_negStride3_self]

/-- Witness for C3 at the concrete tensor `(1,1,3)` with data `[1,2,3]`. -/
theorem correctNormals_involution_witness :
    (TensorXf.mk 1 1 3 [1, 2, 3]).size % 3 = 0 ∧
      correctNormals (correctNormals (TensorXf.mk 1 1 3 [1, 2, 3]))
        = TensorXf.mk 1 1 3 [1, 2, 3] :=
  ⟨by decide, correctNormals_involution (TensorXf.mk 1 1 3 [1, 2, 3]) (by decide)⟩

theorem set_append_singleton {α : Type _} (l : List α) (x y : α) :
    List.set (l ++ [x]) (List.length l) y = l ++ [y] := by
  induction l with
  | nil => rfl
  | cons a l ih => simp [ih]

/-- C4: the normals-correction block never writes through the caller's
pointer: the heap cell the caller supplied is unchanged, the guide
descriptor is built from a freshly allocated corrected copy, and that copy
lives at a different address. -/
theorem correctedNormalsBlock_preserves_caller (h : BufHeap) (nid : Nat)
    (hlt : nid < List.length h) :
    List.getD (correctedNormalsBlock h nid).1 nid default = List.getD h nid default ∧
    (correctedNormalsBlock h nid).2.2
      = optixImage2DfromTensor (correctNormals (List.getD h nid default)) .float3 ∧
    (correctedNormalsBlock h nid).2.1 ≠ nid := by
  have hblock : correctedNormalsBlock h nid
      = (h ++ [correctNormals (List.getD h nid default)], List.length h,
         optixImage2DfromTensor (correctNormals (List.getD h nid default)) .float3) := by
    simp only [correctedNormalsBlock, set_append_singleton]
    rfl
  rw [hblock]
  refine ⟨List.getD_append _ _ _ _ hlt, rfl, ?_⟩
  show List.length h ≠ nid
  omega

/-- Witness for C4: a one-cell heap holding a `(1,1,3)` normals tensor. -/
theorem correctedNormalsBlock_preserves_caller_witness :
    0 < List.length [TensorXf.mk 1 1 3 [5, 6, 7]] ∧
      (List.getD (correctedNormalsBlock [TensorXf.mk 1 1 3 [5, 6, 7]] 0).1 0 default
          = List.getD [TensorXf.mk 1 1 3 [5, 6, 7]] 0 default ∧
        (correctedNormalsBlock [TensorXf.mk 1 1 3 [5, 6, 7]] 0).2.2
          = optixImage2DfromTensor
              (correctNormals (List.getD [TensorXf.mk 1 1 3 [5, 6, 7]] 0 default)) .float3 ∧
        (correctedNormalsBlock [TensorXf.mk 1 1 3 [5, 6, 7]] 0).2.1 ≠ 0) :=
  ⟨by decide, correctedNormalsBlock_preserves_caller [TensorXf.mk 1 1 3 [5, 6, 7]] 0 (by decide)⟩

theorem denoiseTensor_shape_aux (d : Denoiser) (eng : Engine) (noisy : TensorXf)
    (albedo normals previous_denoised flow : Option TensorXf)
    (t : TensorXf) (inv : Invocation)
    (h : d.denoiseTensor eng noisy albedo normals previous_denoised flow = some (t, inv)) :
    t.shape0 = noisy.shape0 ∧ t.shape1 = noisy.shape1 ∧ t.shape2 = noisy.shape2 := by
  cases hA : readGuarded d.options.guideAlbedo albedo <;>
    cases hN : readGuarded d.options.guideNormal normals <;>
    cases hF : readGuarded d.temporal flow <;>
    cases hP : readGuarded d.temporal previous_denoised <;>
    simp [Denoiser.denoiseTensor, hA, hN, hF, hP, bind, Option.bind] at h
  obtain ⟨ht, hinv⟩ := h
  subst ht
  exact ⟨rfl, rfl, rfl⟩

/-- C5: a successful tensor-form `denoise` on a noisy input of shape
`(h, w, c)` with `c ∈ {3, 4}` returns a tensor of exactly that shape, for
any guide/temporal configuration. -/
theorem denoiseTensor_shape (d : Denoiser) (eng : Engine) (noisy : TensorXf)
    (albedo normals previous_denoised flow : Option TensorXf)
    (t : TensorXf) (inv : Invocation)
    (hc : noisy.shape2 = 3 ∨ noisy.shape2 = 4)
    (h : d.denoiseTensor eng noisy albedo normals previous_denoised flow = some (t, inv)) :
    t.shape0 = noisy.shape0 ∧ t.shape1 = noisy.shape1 ∧ t.shape2 = noisy.shape2 :=
  denoiseTensor_shape_aux d eng noisy albedo normals previous_denoised flow t inv h

/-- Witness for C5 at a concrete `(1,1,3)` input and a trivial engine. -/
theorem denoiseTensor_shape_witness :
    (noisyW.shape2 = 3 ∨ noisyW.shape2 = 4) ∧
      (resW.1.shape0 = noisyW.shape0 ∧ resW.1.shape1 = noisyW.shape1 ∧
        resW.1.shape2 = noisyW.shape2) :=
  ⟨Or.inl rfl,
    denoiseTensor_shape denoiserPlainW engTrivial noisyW none none none none resW.1 resW.2
      (Or.inl rfl) rfl⟩

/-- C8: the tensor-form `denoise` reads each optional input only under its
configuration flag: it is defined exactly when every flagged input is
present; consequently the simple-image mode, which passes null for all
optional inputs, is well-defined exactly for instances with no guides and
no temporal mode. -/
theorem denoiseTensor_guarded_reads (d : Denoiser) (eng : Engine) (noisy : TensorXf)
    (albedo normals previous_denoised flow : Option TensorXf) :
    ((d.denoiseTensor eng noisy albedo normals previous_denoised flow).isSome
      = ((!d.options.guideAlbedo || albedo.isSome)
          && (!d.options.guideNormal || normals.isSome)
          && (!d.temporal || (flow.isSome && previous_denoised.isSome)))) ∧
    ((d.denoiseTensor eng noisy none none none none).isSome
      = (!d.options.guideAlbedo && !d.options.guideNormal && !d.temporal)) := by
  obtain ⟨sz, ⟨ga, gn⟩, tm⟩ := d
  constructor
  · cases ga <;> cases gn <;> cases tm <;>
      cases albedo <;> cases normals <;> cases previous_denoised <;> cases flow <;>
      simp [Denoiser.denoiseTensor, readGuarded, bind, Option.bind]
  · cases ga <;> cases gn <;> cases tm <;>
      simp [Denoiser.denoiseTensor, readGuarded, bind, Option.bind]

/-- C10: on an instance with no guides and no temporal mode, the result of
the tensor-form `denoise` (output tensor and engine invocation alike) does
not depend on the albedo, normals, previous-denoised or flow arguments. -/
theorem denoiseTensor_noninterference (sz : Nat × Nat) (eng : Engine) (noisy : TensorXf)
    (albedo normals previous_denoised flow
      albedo' normals' previous_denoised' flow' : Option TensorXf) :
    Denoiser.denoiseTensor ⟨sz, ⟨false, false⟩, false⟩ eng noisy
        albedo normals previous_denoised flow
      = Denoiser.denoiseTensor ⟨sz, ⟨false, false⟩, false⟩ eng noisy
        albedo' normals' previous_denoised' flow' := by
  simp [Denoiser.denoiseTensor, readGuarded]

theorem resolveStep_albedo_found (A N F P Y : String) (s : ResolveState)
    (pr : String × SubImage) (hf : s.found_albedo = true) :
    (resolveStep A N F P Y s pr).found_albedo = true ∧
    (resolveStep A N F P Y s pr).albedo_bmp = s.albedo_bmp := by
  simp only [resolveStep]
  repeat' split
  all_goals simp_all

theorem resolveStep_albedo_match (A N F P Y : String) (s : ResolveState)
    (pr : String × SubImage) (hf : s.found_albedo = false) (hm : (pr.1 == A) = true) :
    (resolveStep A N F P Y s pr).found_albedo = true ∧
    (resolveStep A N F P Y s pr).albedo_bmp = some pr.2 := by
  simp only [resolveStep]
  repeat' split
  all_goals simp_all

theorem resolveStep_albedo_no_match (A N F P Y : String) (s : ResolveState)
    (pr : String × SubImage) (hf : s.found_albedo = false) (hm : (pr.1 == A) = false) :
    (resolveStep A N F P Y s pr).found_albedo = false ∧
    (resolveStep A N F P Y s pr).albedo_bmp = s.albedo_bmp := by
  simp only [resolveStep]
  repeat' split
  all_goals simp_all

theorem resolveStep_normals_found (A N F P Y : String) (s : ResolveState)
    (pr : String × SubImage) (hf : s.found_normals = true) :
    (resolveStep A N F P Y s pr).found_normals = true ∧
    (resolveStep A N F P Y s pr).normals_bmp = s.normals_bmp := by
  simp only [resolveStep]
  repeat' split
  all_goals simp_all

theorem resolveStep_normals_match (A N F P Y : String) (s : ResolveState)
    (pr : String × SubImage) (hf : s.found_normals = false) (hm : (pr.1 == N) = true) :
    (resolveStep A N F P Y s pr).found_normals = true ∧
    (resolveStep A N F P Y s pr).normals_bmp = some pr.2 := by
  simp only [resolveStep]
  repeat' split
  all_goals simp_all

theorem resolveStep_normals_no_match (A N F P Y : String) (s : ResolveState)
    (pr : String × SubImage) (hf : s.found_normals = false) (hm : (pr.1 == N) = false) :
    (resolveStep A N F P Y s pr).found_normals = false ∧
    (resolveStep A N F P Y s pr).normals_bmp = s.normals_bmp := by
  simp only [resolveStep]
  repeat' split
  all_goals simp_all

theorem resolveStep_flow_found (A N F P Y : String) (s : ResolveState)
    (pr : String × SubImage) (hf : s.found_flow = true) :
    (resolveStep A N F P Y s pr).found_flow = true ∧
    (resolveStep A N F P Y s pr).flow_bmp = s.flow_bmp := by
  simp only [resolveStep]
  repeat' split
  all_goals simp_all

theorem resolveStep_flow_match (A N F P Y : String) (s : ResolveState)
    (pr : String × SubImage) (hf : s.found_flow = false) (hm : (pr.1 == F) = true) :
    (resolveStep A N F P Y s pr).found_flow = true ∧
    (resolveStep A N F P Y s pr).flow_bmp = some pr.2 := by
  simp only [resolveStep]
  repeat' split
  all_goals simp_all

theorem resolveStep_flow_no_match (A N F P Y : String) (s : ResolveState)
    (pr : String × SubImage) (hf : s.found_flow = false) (hm : (pr.1 == F) = false) :
    (resolveStep A N F P Y s pr).found_flow = false ∧
    (resolveStep A N F P Y s pr).flow_bmp = s.flow_bmp := by
  simp only [resolveStep]
  repeat' split
  all_goals simp_all

theorem resolveStep_previous_found (A N F P Y : String) (s : ResolveState)
    (pr : String × SubImage) (hf : s.found_previous_denoised = true) :
    (resolveStep A N F P Y s pr).found_previous_denoised = true ∧
    (resolveStep A N F P Y s pr).previous_denoised_bmp = s.previous_denoised_bmp := by
  simp only [resolveStep]
  repeat' split
  all_goals simp_all

theorem resolveStep_previous_match (A N F P Y : String) (s : ResolveState)
    (pr : String × SubImage) (hf : s.found_previous_denoised = false)
    (hm : (pr.1 == P) = true) :
    (resolveStep A N F P Y s pr).found_previous_denoised = true ∧
    (resolveStep A N F P Y s pr).previous_denoised_bmp = some pr.2 := by
  simp only [resolveStep]
  repeat' split
  all_goals simp_all

theorem resolveStep_previous_no_match (A N F P Y : String) (s : ResolveState)
    (pr : String × SubImage) (hf : s.found_previous_denoised = false)
    (hm : (pr.1 == P) = false) :
    (resolveStep A N F P Y s pr).found_previous_denoised = false ∧
    (resolveStep A N F P Y s pr).previous_denoised_bmp = s.previous_denoised_bmp := by
  simp only [resolveStep]
  repeat' split
  all_goals simp_all

theorem resolveStep_noisy_found (A N F P Y : String) (s : ResolveState)
    (pr : String × SubImage) (x : SubImage) (hf : s.noisy_bmp = some x) :
    (resolveStep A N F P Y s pr).noisy_bmp = some x := by
  simp only [resolveStep]
  repeat' split
  all_goals simp_all

theorem resolveStep_noisy_match (A N F P Y : String) (s : ResolveState)
    (pr : String × SubImage) (hf : s.noisy_bmp = none) (hm : (pr.1 == Y) = true) :
    (resolveStep A N F P Y s pr).noisy_bmp = some pr.2 := by
  simp only [resolveStep]
  repeat' split
  all_goals simp_all

theorem resolveStep_noisy_no_match (A N F P Y : String) (s : ResolveState)
    (pr : String × SubImage) (hf : s.noisy_bmp = none) (hm : (pr.1 == Y) = false) :
    (resolveStep A N F P Y s pr).noisy_bmp = none := by
  simp only [resolveStep]
  repeat' split
  all_goals simp_all

theorem resolveLoop_albedo_found (A N F P Y : String) :
    ∀ (l : List (String × SubImage)) (s : ResolveState), s.found_albedo = true →
      (resolveLoop A N F P Y s l).found_albedo = true ∧
      (resolveLoop A N F P Y s l).albedo_bmp = s.albedo_bmp := by
  intro l
  induction l with
  | nil => exact fun s hf => ⟨hf, rfl⟩
  | cons pr rest ih =>
    intro s hf
    by_cases hd : resolveDone s = true
    · simp [resolveLoop, hd, hf]
    · have hr : resolveLoop A N F P Y s (pr :: rest)
          = resolveLoop A N F P Y (resolveStep A N F P Y s pr) rest := by
        simp [resolveLoop, hd]
      have hstep := resolveStep_albedo_found A N F P Y s pr hf
      have ih' := ih (resolveStep A N F P Y s pr) hstep.1
      exact ⟨by rw [hr]; exact ih'.1, by rw [hr, ih'.2, hstep.2]⟩

theorem resolveLoop_albedo_scan (A N F P Y : String) :
    ∀ (l : List (String × SubImage)) (s : ResolveState),
      s.found_albedo = false → s.albedo_bmp = none →
      (resolveLoop A N F P Y s l).albedo_bmp
        = (List.find? (fun q => q.1 == A) l).map Prod.snd := by
  intro l
  induction l with
  | nil => intro s hf hb; simpa using hb
  | cons pr rest ih =>
    intro s hf hb
    have hd : resolveDone s = false := by simp [resolveDone, hf]
    have hr : resolveLoop A N F P Y s (pr :: rest)
        = resolveLoop A N F P Y (resolveStep A N F P Y s pr) rest := by
      simp [resolveLoop, hd]
    rw [hr]
    by_cases hm : (pr.1 == A) = true
    · have hstep := resolveStep_albedo_match A N F P Y s pr hf hm
      rw [(resolveLoop_albedo_found A N F P Y rest _ hstep.1).2, hstep.2]
      simp [List.find?, hm]
    · have hm' : (pr.1 == A) = false := by simpa using hm
      have hstep := resolveStep_albedo_no_match A N F P Y s pr hf hm'
      rw [ih _ hstep.1 (hstep.2.trans hb)]
      simp [List.find?, hm']

theorem resolveLoop_normals_found (A N F P Y : String) :
    ∀ (l : List (String × SubImage)) (s : ResolveState), s.found_normals = true →
      (resolveLoop A N F P Y s l).found_normals = true ∧
      (resolveLoop A N F P Y s l).normals_bmp = s.normals_bmp := by
  intro l
  induction l with
  | nil => exact fun s hf => ⟨hf, rfl⟩
  | cons pr rest ih =>
    intro s hf
    by_cases hd : resolveDone s = true
    · simp [resolveLoop, hd, hf]
    · have hr : resolveLoop A N F P Y s (pr :: rest)
          = resolveLoop A N F P Y (resolveStep A N F P Y s pr) rest := by
        simp [resolveLoop, hd]
      have hstep := resolveStep_normals_found A N F P Y s pr hf
      have ih' := ih (resolveStep A N F P Y s pr) hstep.1
      exact ⟨by rw [hr]; exact ih'.1, by rw [hr, ih'.2, hstep.2]⟩

theorem resolveLoop_normals_scan (A N F P Y : String) :
    ∀ (l : List (String × SubImage)) (s : ResolveState),
      s.found_normals = false → s.normals_bmp = none →
      (resolveLoop A N F P Y s l).normals_bmp
        = (List.find? (fun q => q.1 == N) l).map Prod.snd := by
  intro l
  induction l with
  | nil => intro s hf hb; simpa using hb
  | cons pr rest ih =>
    intro s hf hb
    have hd : resolveDone s = false := by simp [resolveDone, hf]
    have hr : resolveLoop A N F P Y s (pr :: rest)
        = resolveLoop A N F P Y (resolveStep A N F P Y s pr) rest := by
      simp [resolveLoop, hd]
    rw [hr]
    by_cases hm : (pr.1 == N) = true
    · have hstep := resolveStep_normals_match A N F P Y s pr hf hm
      rw [(resolveLoop_normals_found A N F P Y rest _ hstep.1).2, hstep.2]
      simp [List.find?, hm]
    · have hm' : (pr.1 == N) = false := by simpa using hm
      have hstep := resolveStep_normals_no_match A N F P Y s pr hf hm'
      rw [ih _ hstep.1 (hstep.2.trans hb)]
      simp [List.find?, hm']

theorem resolveLoop_flow_found (A N F P Y : String) :
    ∀ (l : List (String × SubImage)) (s : ResolveState), s.found_flow = true →
      (resolveLoop A N F P Y s l).found_flow = true ∧
      (resolveLoop A N F P Y s l).flow_bmp = s.flow_bmp := by
  intro l
  induction l with
  | nil => exact fun s hf => ⟨hf, rfl⟩
  | cons pr rest ih =>
    intro s hf
    by_cases hd : resolveDone s = true
    · simp [resolveLoop, hd, hf]
    · have hr : resolveLoop A N F P Y s (pr :: rest)
          = resolveLoop A N F P Y (resolveStep A N F P Y s pr) rest := by
        simp [resolveLoop, hd]
      have hstep := resolveStep_flow_found A N F P Y s pr hf
      have ih' := ih (resolveStep A N F P Y s pr) hstep.1
      exact ⟨by rw [hr]; exact ih'.1, by rw [hr, ih'.2, hstep.2]⟩

theorem resolveLoop_flow_scan (A N F P Y : String) :
    ∀ (l : List (String × SubImage)) (s : ResolveState),
      s.found_flow = false → s.flow_bmp = none →
      (resolveLoop A N F P Y s l).flow_bmp
        = (List.find? (fun q => q.1 == F) l).map Prod.snd := by
  intro l
  induction l with
  | nil => intro s hf hb; simpa using hb
  | cons pr rest ih =>
    intro s hf hb
    have hd : resolveDone s = false := by simp [resolveDone, hf]
    have hr : resolveLoop A N F P Y s (pr :: rest)
        = resolveLoop A N F P Y (resolveStep A N F P Y s pr) rest := by
      simp [resolveLoop, hd]
    rw [hr]
    by_cases hm : (pr.1 == F) = true
    · have hstep := resolveStep_flow_match A N F P Y s pr hf hm
      rw [(resolveLoop_flow_found A N F P Y rest _ hstep.1).2, hstep.2]
      simp [List.find?, hm]
    · have hm' : (pr.1 == F) = false := by simpa using hm
      have hstep := resolveStep_flow_no_match A N F P Y s pr hf hm'
      rw [ih _ hstep.1 (hstep.2.trans hb)]
      simp [List.find?, hm']

theorem resolveLoop_previous_found (A N F P Y : String) :
    ∀ (l : List (String × SubImage)) (s : ResolveState),
      s.found_previous_denoised = true →
      (resolveLoop A N F P Y s l).found_previous_denoised = true ∧
      (resolveLoop A N F P Y s l).previous_denoised_bmp = s.previous_denoised_bmp := by
  intro l
  induction l with
  | nil => exact fun s hf => ⟨hf, rfl⟩
  | cons pr rest ih =>
    intro s hf
    by_cases hd : resolveDone s = true
    · simp [resolveLoop, hd, hf]
    · have hr : resolveLoop A N F P Y s (pr :: rest)
          = resolveLoop A N F P Y (resolveStep A N F P Y s pr) rest := by
        simp [resolveLoop, hd]
      have hstep := resolveStep_previous_found A N F P Y s pr hf
      have ih' := ih (resolveStep A N F P Y s pr) hstep.1
      exact ⟨by rw [hr]; exact ih'.1, by rw [hr, ih'.2, hstep.2]⟩

theorem resolveLoop_previous_scan (A N F P Y : String) :
    ∀ (l : List (String × SubImage)) (s : ResolveState),
      s.found_previous_denoised = false → s.previous_denoised_bmp = none →
      (resolveLoop A N F P Y s l).previous_denoised_bmp
        = (List.find? (fun q => q.1 == P) l).map Prod.snd := by
  intro l
  induction l with
  | nil => intro s hf hb; simpa using hb
  | cons pr rest ih =>
    intro s hf hb
    have hd : resolveDone s = false := by simp [resolveDone, hf]
    have hr : resolveLoop A N F P Y s (pr :: rest)
        = resolveLoop A N F P Y (resolveStep A N F P Y s pr) rest := by
      simp [resolveLoop, hd]
    rw [hr]
    by_cases hm : (pr.1 == P) = true
    · have hstep := resolveStep_previous_match A N F P Y s pr hf hm
      rw [(resolveLoop_previous_found A N F P Y rest _ hstep.1).2, hstep.2]
      simp [List.find?, hm]
    · have hm' : (pr.1 == P) = false := by simpa using hm
      have hstep := resolveStep_previous_no_match A N F P Y s pr hf hm'
      rw [ih _ hstep.1 (hstep.2.trans hb)]
      simp [List.find?, hm']

theorem resolveLoop_noisy_found (A N F P Y : String) :
    ∀ (l : List (String × SubImage)) (s : ResolveState) (x : SubImage),
      s.noisy_bmp = some x →
      (resolveLoop A N F P Y s l).noisy_bmp = some x := by
  intro l
  induction l with
  | nil => exact fun s x hf => hf
  | cons pr rest ih =>
    intro s x hf
    by_cases hd : resolveDone s = true
    · simp [resolveLoop, hd, hf]
    · have hr : resolveLoop A N F P Y s (pr :: rest)
          = resolveLoop A N F P Y (resolveStep A N F P Y s pr) rest := by
        simp [resolveLoop, hd]
      rw [hr]
      exact ih _ x (resolveStep_noisy_found A N F P Y s pr x hf)

theorem resolveLoop_noisy_scan (A N F P Y : String) :
    ∀ (l : List (String × SubImage)) (s : ResolveState),
      s.noisy_bmp = none →
      (resolveLoop A N F P Y s l).noisy_bmp
        = (List.find? (fun q => q.1 == Y) l).map Prod.snd := by
  intro l
  induction l with
  | nil => intro s hf; simpa using hf
  | cons pr rest ih =>
    intro s hf
    have hd : resolveDone s = false := by simp [resolveDone, hf]
    have hr : resolveLoop A N F P Y s (pr :: rest)
        = resolveLoop A N F P Y (resolveStep A N F P Y s pr) rest := by
      simp [resolveLoop, hd]
    rw [hr]
    by_cases hm : (pr.1 == Y) = true
    · rw [resolveLoop_noisy_found A N F P Y rest _ pr.2
        (resolveStep_noisy_match A N F P Y s pr hf hm)]
      simp [List.find?, hm]
    · have hm' : (pr.1 == Y) = false := by simpa using hm
      rw [ih _ (resolveStep_noisy_no_match A N F P Y s pr hf hm')]
      simp [List.find?, hm']

theorem resolveChannels_albedo (b : Bitmap) (A N F P Y : String) :
    (resolveChannels b A N F P Y).albedo_bmp
      = if (A == "") = true then none
        else (List.find? (fun q => q.1 == A) b.layers).map Prod.snd := by
  by_cases hA : (A == "") = true
  · rw [if_pos hA]
    exact (resolveLoop_albedo_found A N F P Y b.layers _ (by simp [initResolveState, hA])).2
  · rw [if_neg hA]
    exact resolveLoop_albedo_scan A N F P Y b.layers _ (by simp [initResolveState, hA]) rfl

theorem resolveChannels_normals (b : Bitmap) (A N F P Y : String) :
    (resolveChannels b A N F P Y).normals_bmp
      = if (N == "") = true then none
        else (List.find? (fun q => q.1 == N) b.layers).map Prod.snd := by
  by_cases hN : (N == "") = true
  · rw [if_pos hN]
    exact (resolveLoop_normals_found A N F P Y b.layers _ (by simp [initResolveState, hN])).2
  · rw [if_neg hN]
    exact resolveLoop_normals_scan A N F P Y b.layers _ (by simp [initResolveState, hN]) rfl

theorem resolveChannels_flow (b : Bitmap) (A N F P Y : String) :
    (resolveChannels b A N F P Y).flow_bmp
      = if (F == "") = true then none
        else (List.find? (fun q => q.1 == F) b.layers).map Prod.snd := by
  by_cases hF : (F == "") = true
  · rw [if_pos hF]
    exact (resolveLoop_flow_found A N F P Y b.layers _ (by simp [initResolveState, hF])).2
  · rw [if_neg hF]
    exact resolveLoop_flow_scan A N F P Y b.layers _ (by simp [initResolveState, hF]) rfl

theorem resolveChannels_previous (b : Bitmap) (A N F P Y : String) :
    (resolveChannels b A N F P Y).previous_denoised_bmp
      = if (P == "") = true then none
        else (List.find? (fun q => q.1 == P) b.layers).map Prod.snd := by
  by_cases hP : (P == "") = true
  · rw [if_pos hP]
    exact (resolveLoop_previous_found A N F P Y b.layers _ (by simp [initResolveState, hP])).2
  · rw [if_neg hP]
    exact resolveLoop_previous_scan A N F P Y b.layers _ (by simp [initResolveState, hP]) rfl

theorem resolveChannels_noisy (b : Bitmap) (A N F P Y : String) :
    (resolveChannels b A N F P Y).noisy_bmp
      = (List.find? (fun q => q.1 == Y) b.layers).map Prod.snd :=
  resolveLoop_noisy_scan A N F P Y b.layers _ rfl

/-- C6: the channel resolver scans the ordered sub-image list once and, for
each requested channel name, records the first sub-image whose name equals
the request; an empty requested name counts as already satisfied and
matches nothing; in particular, on the spec's scenario (layers
diffuse/albedo/normals/noisy, requesting noisy, albedo and normals) exactly
those three sub-images are located and the call does not fail. -/
theorem channel_resolution (b : Bitmap) (A N F P Y : String) :
    ((resolveChannels b A N F P Y).albedo_bmp
        = if (A == "") = true then none
          else (List.find? (fun q => q.1 == A) b.layers).map Prod.snd) ∧
    ((resolveChannels b A N F P Y).normals_bmp
        = if (N == "") = true then none
          else (List.find? (fun q => q.1 == N) b.layers).map Prod.snd) ∧
    ((resolveChannels b A N F P Y).flow_bmp
        = if (F == "") = true then none
          else (List.find? (fun q => q.1 == F) b.layers).map Prod.snd) ∧
    ((resolveChannels b A N F P Y).previous_denoised_bmp
        = if (P == "") = true then none
          else (List.find? (fun q => q.1 == P) b.layers).map Prod.snd) ∧
    ((resolveChannels b A N F P Y).noisy_bmp
        = (List.find? (fun q => q.1 == Y) b.layers).map Prod.snd) ∧
    ((resolveChannels bitmapC6 "albedo" "normals" "" "" "noisy").albedo_bmp
        = some ⟨3, [1, 2, 3]⟩ ∧
      (resolveChannels bitmapC6 "albedo" "normals" "" "" "noisy").normals_bmp
        = some ⟨3, [4, 5, 6]⟩ ∧
      (resolveChannels bitmapC6 "albedo" "normals" "" "" "noisy").noisy_bmp
        = some ⟨3, [7, 8, 9]⟩ ∧
      (resolveChannels bitmapC6 "albedo" "normals" "" "" "noisy").flow_bmp = none ∧
      (resolveChannels bitmapC6 "albedo" "normals" "" "" "noisy").previous_denoised_bmp
        = none ∧
      (denoiserC6.denoiseBitmap engTrivial bitmapC6 "albedo" "normals" "" "" "noisy").isOk
        = true) :=
  ⟨resolveChannels_albedo b A N F P Y, resolveChannels_normals b A N F P Y,
    resolveChannels_flow b A N F P Y, resolveChannels_previous b A N F P Y,
    resolveChannels_noisy b A N F P Y, by decide⟩

/-- C7: when a non-empty requested channel name or the noisy channel name
matched no sub-image, the multi-layer call fails with a missing-channel
error carrying one of the missing names together with the image
description, and no denoising is performed (the call returns before the
delegated tensor-form call). -/
theorem missing_channel_error (d : Denoiser) (eng : Engine) (b : Bitmap)
    (A N F P Y : String)
    (hpf : b.pixelFormat = PixelFormat.MultiChannel)
    (hmiss : (resolveChannels b A N F P Y).noisy_bmp = none ∨
      (resolveChannels b A N F P Y).found_albedo = false ∨
      (resolveChannels b A N F P Y).found_normals = false ∨
      (resolveChannels b A N F P Y).found_flow = false ∨
      (resolveChannels b A N F P Y).found_previous_denoised = false) :
    ∃ c, d.denoiseBitmap eng b A N F P Y = .error (.missingChannel c b.describe) ∧
      ((c = Y ∧ (resolveChannels b A N F P Y).noisy_bmp = none) ∨
       (c = A ∧ (resolveChannels b A N F P Y).found_albedo = false) ∨
       (c = N ∧ (resolveChannels b A N F P Y).found_normals = false) ∨
       (c = F ∧ (resolveChannels b A N F P Y).found_flow = false) ∨
       (c = P ∧ (resolveChannels b A N F P Y).found_previous_denoised = false)) := by
  cases hnb : (resolveChannels b A N F P Y).noisy_bmp with
  | none =>
    refine ⟨Y, ?_, Or.inl ⟨rfl, rfl⟩⟩
    simp [Denoiser.denoiseBitmap, hpf, hnb]
  | some nb =>
    cases hfa : (resolveChannels b A N F P Y).found_albedo with
    | false =>
      refine ⟨A, ?_, Or.inr (Or.inl ⟨rfl, rfl⟩)⟩
      simp [Denoiser.denoiseBitmap, hpf, hnb, hfa]
    | true =>
      cases hfn : (resolveChannels b A N F P Y).found_normals with
      | false =>
        refine ⟨N, ?_, Or.inr (Or.inr (Or.inl ⟨rfl, rfl⟩))⟩
        simp [Denoiser.denoiseBitmap, hpf, hnb, hfa, hfn]
      | true =>
        cases hff : (resolveChannels b A N F P Y).found_flow with
        | false =>
          refine ⟨F, ?_, Or.inr (Or.inr (Or.inr (Or.inl ⟨rfl, rfl⟩)))⟩
          simp [Denoiser.denoiseBitmap, hpf, hnb, hfa, hfn, hff]
        | true =>
          cases hfp : (resolveChannels b A N F P Y).found_previous_denoised with
          | false =>
            refine ⟨P, ?_, Or.inr (Or.inr (Or.inr (Or.inr ⟨rfl, rfl⟩)))⟩
            simp [Denoiser.denoiseBitmap, hpf, hnb, hfa, hfn, hff, hfp]
          | true => simp_all

/-- Witness for C7: the spec's missing-channel scenario, requesting
`albedo = "missing_layer"` on the diffuse/albedo/normals/noisy image. -/
theorem missing_channel_error_witness :
    bitmapC6.pixelFormat = PixelFormat.MultiChannel ∧
      (∃ c, denoiserC6.denoiseBitmap engTrivial bitmapC6 "missing_layer" "" "" "" "noisy"
          = .error (.missingChannel c bitmapC6.describe) ∧
        ((c = "noisy" ∧
            (resolveChannels bitmapC6 "missing_layer" "" "" "" "noisy").noisy_bmp = none) ∨
         (c = "missing_layer" ∧
            (resolveChannels bitmapC6 "missing_layer" "" "" "" "noisy").found_albedo
              = false) ∨
         (c = "" ∧
            (resolveChannels bitmapC6 "missing_layer" "" "" "" "noisy").found_normals
              = false) ∨
         (c = "" ∧
            (resolveChannels bitmapC6 "missing_layer" "" "" "" "noisy").found_flow
              = false) ∨
         (c = "" ∧
            ResolveState.found_previous_denoised
              (resolveChannels bitmapC6 "missing_layer" "" "" "" "noisy") = false))) :=
  ⟨rfl, missing_channel_error denoiserC6 engTrivial bitmapC6 "missing_layer" "" "" "" "noisy"
    rfl (by decide)⟩

/-- C1 (refuted; code bug): in the structured temporal path the call site
(denoiser.cpp lines 230-232) passes the flow-built tensor in the
`previous_denoised` parameter position and the previous-denoised-built
tensor in the `flow` position (the declaration at lines 62-64 orders the
parameters `noisy, albedo, normals, previous_denoised, flow`), so the
engine's 2-channel motion-vector guide receives the previous-denoised
sub-image's data and the previous-output layer receives the 2-channel flow
sub-image's data: the per-role assignment of the located sub-images is not
preserved. -/
theorem temporal_roles_swapped :
    denoiserT.denoiseBitmap engTrivial bitmapT "" "" "flow" "prev" "noisy" = .ok resT ∧
    resT.invocation.guide.flow
      = some (optixImage2DfromTensor ⟨1, 1, 3, [7, 8, 9]⟩ .float2) ∧
    resT.invocation.layers.previousOutput
      = some (optixImage2DfromTensor ⟨1, 1, 2, [100, 200]⟩ .float3) ∧
    resT.invocation.guide.flow
      ≠ some (optixImage2DfromTensor ⟨1, 1, 2, [100, 200]⟩ .float2) :=
  ⟨rfl, by decide, by decide, by decide⟩

/-- C9 counterexample: the resolution of the image returned by the
multi-layer path comes from the supplied image, not from the resolution the
instance was configured with, and the code performs no validation (the
`TODO` at line 67): feeding a 1x1 multi-layer image to an instance
configured for 2x2 succeeds and returns a 1x1 image. -/
theorem denoiseBitmap_resolution_from_input :
    denoiserMismatch.denoiseBitmap engTrivial bitmapSmall "" "" "" "" "noisy"
        = .ok resSmall ∧
    denoiserMismatch.inputSize = (2, 2) ∧
    resSmall.bitmap.width = 1 ∧ resSmall.bitmap.height = 1 ∧
    ¬(resSmall.bitmap.width = 2 ∧ resSmall.bitmap.height = 2) :=
  ⟨rfl, rfl, by decide, by decide, by decide⟩

/-- C9 (amended): every successful multi-layer `denoise` call returns an
image wrapping the host-migrated copy of the denoised output, with the
migration and the stream synchronization issued before the image is
constructed; the image is color (RGB) when the denoised tensor has 3
channels and color+alpha (RGBA) otherwise, and its resolution equals the
resolution of the supplied image (equal to the configured resolution for
conforming callers; the code does not validate the match). -/
theorem denoiseBitmap_postprocessing (d : Denoiser) (eng : Engine) (b : Bitmap)
    (A N F P Y : String) (res : BitmapDenoiseResult)
    (h : d.denoiseBitmap eng b A N F P Y = .ok res) :
    res.bitmap = wrapDenoised res.denoised ∧
    res.bitmap.pixelFormat
      = (if res.denoised.shape2 = 3 then PixelFormat.RGB else PixelFormat.RGBA) ∧
    res.bitmap.height = b.height ∧
    res.bitmap.width = b.width ∧
    res.bitmap.channelCount = res.denoised.shape2 ∧
    res.bitmap.data = res.denoised.data ∧
    res.events = [.computeIntensity, .engineInvoke, .migrate .Host,
      .syncThread, .newBitmap] := by
  simp only [Denoiser.denoiseBitmap] at h
  split at h
  · split at h
    · simp at h
    · rename_i den inv heq
      injection h with h'
      subst h'
      obtain ⟨h0, h1, h2⟩ := denoiseTensor_shape_aux _ _ _ _ _ _ _ _ _ heq
      exact ⟨rfl, rfl, h0, h1, rfl, rfl, rfl⟩
  · split at h
    · simp at h
    · split at h
      · simp at h
      · split at h
        · simp at h
        · split at h
          · simp at h
          · split at h
            · simp at h
            · split at h
              · simp at h
              · rename_i den inv heq
                injection h with h'
                subst h'
                obtain ⟨h0, h1, h2⟩ := denoiseTensor_shape_aux _ _ _ _ _ _ _ _ _ heq
                exact ⟨rfl, rfl, h0, h1, rfl, rfl, rfl⟩

/-- Witness for C9's amended statement at the concrete 1x1 scenario. -/
theorem denoiseBitmap_postprocessing_witness :
    denoiserMismatch.denoiseBitmap engTrivial bitmapSmall "" "" "" "" "noisy"
        = .ok resSmall ∧
      (resSmall.bitmap = wrapDenoised resSmall.denoised ∧
        resSmall.bitmap.pixelFormat
          = (if resSmall.denoised.shape2 = 3 then PixelFormat.RGB else PixelFormat.RGBA) ∧
        resSmall.bitmap.height = bitmapSmall.height ∧
        resSmall.bitmap.width = bitmapSmall.width ∧
        resSmall.bitmap.channelCount = resSmall.denoised.shape2 ∧
        resSmall.bitmap.data = resSmall.denoised.data ∧
        resSmall.events = [.computeIntensity, .engineInvoke, .migrate .Host,
          .syncThread, .newBitmap]) :=
  ⟨rfl, denoiseBitmap_postprocessing denoiserMismatch engTrivial bitmapSmall
    "" "" "" "" "noisy" resSmall rfl⟩

end Mitsuba
